import Mathlib

/-
Shallow embedding of the ChatAI repository core:
 - src/api/openrouter.py  (OpenRouterClient: get_models / send_message / get_balance, __init__)
 - src/utils/cache.py     (ChatCache: save_message / get_chat_history / save_analytics /
                           get_analytics_history / clear_history)
 - src/main.py            (response extraction in send_message_click)
 - src/utils/analytics.py is NOT part of the source tree; its get_statistics is modelled
   from the specification (marked below).

Modelling conventions:
 - JSON bodies are a `Json` inductive with rational numbers (Python ints/floats are
   idealised as exact rationals; no claim depends on binary floating point rounding).
 - The outcome of a remote HTTP call is an explicit `HttpOutcome` value: either the library
   raised (network error), or a response with a status code and a parse result of the
   body.  `requests.Response.raise_for_status` raises exactly for 400 <= status < 600.
 - Python `try/except` bodies become Option/Except-valued functions; the `except`
   branch is the `none`/`error` continuation.
 - Python dict `d[k]` (KeyError/TypeError on failure) is `jIndex`; `d.get(k, default)`
   (AttributeError when the receiver is not a dict) is `dictGet`.
 - SQLite `CURRENT_TIMESTAMP` text values are idealised as rational clock instants
   (for the fixed "YYYY-MM-DD HH:MM:SS" format, lexicographic order on the stored TEXT
   agrees with chronological order, so ORDER BY compares the same way).
 - SQLite `INTEGER PRIMARY KEY AUTOINCREMENT` is a persistent counter `next_message_id`
   that only ever grows (AUTOINCREMENT never reuses an id, even after DELETE).
-/

namespace ChatAI

/-- JSON values as produced by `resp.json()`; numbers are idealised as rationals. -/
inductive Json where
  | null
  | bool (b : Bool)
  | num (q : Rat)
  | str (s : String)
  | arr (elems : List Json)
  | obj (fields : List (String × Json))

/-- Python `m[k]` on a parsed-JSON value: a key lookup that fails (KeyError /
TypeError) unless the receiver is an object containing the key. -/
def jIndex (j : Json) (k : String) : Option Json :=
  match j with
  | .obj fields => fields.lookup k
  | _ => none

/-- Python `d.get(k, default)`: returns the value or the default on a dict, and
fails (AttributeError) when the receiver is not a dict. -/
def dictGet (j : Json) (k : String) (d : Json) : Option Json :=
  match j with
  | .obj fields => some ((fields.lookup k).getD d)
  | _ => none

/-- Outcome of one HTTP call made with the `requests` library: the call itself may
raise (network failure), or return a response with a status code whose body parses
to JSON or fails to parse. -/
inductive HttpOutcome where
  | raised (msg : String)
  | response (status : Nat) (body : Except String Json)

/-- `requests.Response.raise_for_status` raises exactly for client and server error
status codes, i.e. 400 <= status < 600. -/
def statusError (status : Nat) : Bool :=
  400 ≤ status && status < 600

/-- The error text carried by the `requests.HTTPError` that `raise_for_status`
raises; the claims only depend on it being some string. -/
def statusErrorText (status : Nat) : String :=
  toString status ++ " Error"

/-- The parsed JSON of a fully successful call (no raise, success status, body
parses), `none` on any failure. -/
def requestOk : HttpOutcome → Option Json
  | .raised _ => none
  | .response status body => if statusError status then none else body.toOption

-- Defaults from the top of src/api/openrouter.py.

def DEFAULT_API_KEY : String := "your-api-key-here"

def DEFAULT_BASE_URL : String := "https://openrouter.ai/api/v1"

def DEFAULT_LOG_LEVEL : String := "INFO"

/-- The hardcoded fallback returned by `get_models` on any failure
(src/api/openrouter.py lines 64-68). -/
def fallback_models : List Json :=
  [Json.obj [("id", Json.str "deepseek-coder"), ("name", Json.str "DeepSeek")],
   Json.obj [("id", Json.str "claude-3-sonnet"), ("name", Json.str "Claude 3.5 Sonnet")],
   Json.obj [("id", Json.str "gpt-3.5-turbo"), ("name", Json.str "GPT-3.5 Turbo")]]

/-- One element of the list comprehension in `get_models`: a dict carrying the
id and name fields of `m`; fails (KeyError/TypeError) when `m` is not an object
carrying both keys. -/
def modelEntry (m : Json) : Option Json :=
  match jIndex m "id", jIndex m "name" with
  | some i, some n => some (Json.obj [("id", i), ("name", n)])
  | _, _ => none

/-- The `try` body of `OpenRouterClient.get_models`: fetch, `raise_for_status`,
parse, read the data field (defaulting to an empty list), and build the
comprehension; `none` when any step raises. -/
def tryFetchModels : HttpOutcome → Option (List Json)
  | .raised _ => none
  | .response status body =>
    if statusError status then none
    else
      match body with
      | .error _ => none
      | .ok j =>
        match dictGet j "data" (Json.arr []) with
        | none => none
        | some d =>
          match d with
          | .arr ms => ms.mapM modelEntry
          | _ => none

/-- `OpenRouterClient.get_models`: the `try` body, with the `except` branch
returning the hardcoded fallback list. -/
def get_models (r : HttpOutcome) : List Json :=
  (tryFetchModels r).getD fallback_models

/-- `OpenRouterClient.send_message`: returns the parsed JSON on success and an
object with an `error` key carrying `str(e)` on any failure (the arguments
`message` and `model` shape the request, not the normalisation of the outcome). -/
def send_message (message model : String) (r : HttpOutcome) : Json :=
  match r with
  | .raised e => Json.obj [("error", Json.str e)]
  | .response status body =>
    if statusError status then Json.obj [("error", Json.str (statusErrorText status))]
    else
      match body with
      | .error e => Json.obj [("error", Json.str e)]
      | .ok j => j

/-- Round the fraction `a / b` (with `b > 0`) to the nearest natural number,
ties to even — the rounding Python uses when formatting an exact value with a
fixed number of decimal places. -/
def roundHalfEven (a b : Nat) : Nat :=
  let q := a / b
  let r := a % b
  if 2 * r < b then q
  else if b < 2 * r then q + 1
  else if q % 2 = 0 then q else q + 1

/-- Two-decimal rendering, the model of Python `f"..:.2f"` on an exact value:
the magnitude in cents is `|x| * 100 = (|x.num| * 100) / x.den` rounded half to
even, printed with exactly two digits after the point. -/
def formatF2 (x : Rat) : String :=
  let sgn := if x < 0 then "-" else ""
  let cents := roundHalfEven (x.num.natAbs * 100) x.den
  sgn ++ toString (cents / 100) ++ "." ++
    (if cents % 100 < 10 then "0" else "") ++ toString (cents % 100)

/-- `OpenRouterClient.get_balance`: on a fully successful call reads
`data.total_credits` and `data.total_usage` (each defaulting to 0), formats the
difference as a two-decimal dollar string; the `except` branch returns the fixed
localized failure string. -/
def get_balance (r : HttpOutcome) : String :=
  match r with
  | .raised _ => "Ошибка"
  | .response status body =>
    if statusError status then "Ошибка"
    else
      match body with
      | .error _ => "Ошибка"
      | .ok j =>
        match dictGet j "data" (Json.obj []) with
        | none => "Ошибка"
        | some data =>
          match dictGet data "total_credits" (Json.num 0),
                dictGet data "total_usage" (Json.num 0) with
          | some (Json.num c), some (Json.num u) => "$" ++ formatF2 (c - u)
          | _, _ => "Ошибка"

/-- Modelled subset of Python `int(s)`: an optional sign followed by decimal
digits; any other string raises ValueError (`none`).  (Surrounding whitespace and
underscore separators, which Python also accepts, are not used by the
configuration strings of this program and are not modelled.) -/
def digitsVal (cs : List Char) : Option Nat :=
  if cs = [] then none
  else if cs.all Char.isDigit then
    some (cs.foldl (fun acc c => 10 * acc + (c.toNat - 48)) 0)
  else none

/-- Python `int(s)` on the modelled subset (see `digitsVal`). -/
def pyInt (s : String) : Option Int :=
  match s.toList with
  | '-' :: rest => (digitsVal rest).map fun n => -(n : Int)
  | '+' :: rest => (digitsVal rest).map fun n => (n : Int)
  | cs => (digitsVal cs).map fun n => (n : Int)

/-- Magnitude of a Python float literal: digits with an optional fractional part. -/
def pyFloatMag (cs : List Char) : Option Rat :=
  match cs.splitOn '.' with
  | [w] => (digitsVal w).map fun n => (n : Rat)
  | [w, f] =>
    match digitsVal w, digitsVal f with
    | some wn, some fn => some ((wn : Rat) + (fn : Rat) / ((10 : Rat) ^ f.length))
    | _, _ => none
  | _ => none

/-- Modelled subset of Python `float(s)`: optional sign, digits, optional
fractional part; any other string raises ValueError (`none`). -/
def pyFloat (s : String) : Option Rat :=
  match s.toList with
  | '-' :: rest => (pyFloatMag rest).map fun q => -q
  | '+' :: rest => pyFloatMag rest
  | cs => pyFloatMag cs

/-- ASCII lower-casing of a string (model of Python `str.lower` on the
configuration strings in play). -/
def lowerStr (s : String) : String :=
  String.mk (s.toList.map Char.toLower)

/-- The DEBUG parse in `__init__`:
`os.getenv("DEBUG", str(False)).lower() in ("1", "true", "yes")`. -/
def parseDebug (s : String) : Bool :=
  lowerStr s = "1" || lowerStr s = "true" || lowerStr s = "yes"

/-- The environment variables `OpenRouterClient.__init__` reads; `none` means the
variable is unset (so `os.getenv` yields the hardcoded default). -/
structure Env where
  OPENROUTER_API_KEY : Option String
  BASE_URL : Option String
  DEBUG : Option String
  LOG_LEVEL : Option String
  MAX_TOKENS : Option String
  TEMPERATURE : Option String

/-- The credential the constructor resolves:
`os.getenv("OPENROUTER_API_KEY", DEFAULT_API_KEY)`. -/
def resolveApiKey (env : Env) : String :=
  env.OPENROUTER_API_KEY.getD DEFAULT_API_KEY

/-- The configuration state a successfully constructed client holds. -/
structure OpenRouterClient where
  api_key : String
  base_url : String
  debug : Bool
  log_level : String
  max_tokens : Int
  temperature : Rat

/-- The exceptions `OpenRouterClient.__init__` can raise, in Python program
order: `int(...)` on MAX_TOKENS, `float(...)` on TEMPERATURE, then the explicit
`ValueError("OpenRouter API key not found")` when the resolved key is falsy
(the empty string). -/
inductive InitError where
  | valueErrorInt (s : String)
  | valueErrorFloat (s : String)
  | missingApiKey

/-- `OpenRouterClient.__init__` (configuration part): reads each variable with
its hardcoded default, parses the numeric settings in source order (these can
raise first), then fail-fasts when the resolved credential is empty. -/
def clientInit (env : Env) : Except InitError OpenRouterClient :=
  let api_key := resolveApiKey env
  let base_url := env.BASE_URL.getD DEFAULT_BASE_URL
  let debug := parseDebug (env.DEBUG.getD "False")
  let log_level := env.LOG_LEVEL.getD DEFAULT_LOG_LEVEL
  match env.MAX_TOKENS.getD "1000" with
  | mts =>
    match pyInt mts with
    | none => .error (.valueErrorInt mts)
    | some max_tokens =>
      match env.TEMPERATURE.getD "0.7" with
      | ts =>
        match pyFloat ts with
        | none => .error (.valueErrorFloat ts)
        | some temperature =>
          if api_key = "" then .error .missingApiKey
          else .ok ⟨api_key, base_url, debug, log_level, max_tokens, temperature⟩

/-- One row of the `messages` table (src/utils/cache.py lines 58-65); the
timestamp is an idealised clock instant (see the header comment). -/
structure MessageRow where
  id : Nat
  model : String
  user_message : String
  ai_response : String
  timestamp : Rat
  tokens_used : Int
deriving DecidableEq

/-- One row of the `analytics_messages` table (src/utils/cache.py lines 70-77). -/
structure AnalyticsRow where
  id : Nat
  timestamp : Rat
  model : String
  message_length : Int
  response_time : Rat
  tokens_used : Int
deriving DecidableEq

/-- The persistent state `ChatCache` owns: the two tables plus their
AUTOINCREMENT counters (which only grow, and survive DELETE). -/
structure ChatCache where
  messages : List MessageRow
  analytics : List AnalyticsRow
  next_message_id : Nat
  next_analytics_id : Nat
deriving DecidableEq

/-- The state right after `create_tables` on a fresh database file: both tables
empty, AUTOINCREMENT counters at 1 (the first rowid SQLite assigns). -/
def emptyCache : ChatCache :=
  ⟨[], [], 1, 1⟩

/-- `ChatCache.save_message`: inserts a new `messages` row; the id comes from
AUTOINCREMENT and the timestamp from the own clock of the store (`CURRENT_TIMESTAMP`
in the INSERT), here the explicit parameter `now` — the Python caller supplies
only (model, user_message, ai_response, tokens_used). -/
def save_message (db : ChatCache) (now : Rat) (model user_message ai_response : String)
    (tokens_used : Int) : ChatCache :=
  { db with
    messages := db.messages ++
      [⟨db.next_message_id, model, user_message, ai_response, now, tokens_used⟩],
    next_message_id := db.next_message_id + 1 }

/-- `ChatCache.save_analytics`: inserts a new `analytics_messages` row; unlike
`save_message`, the timestamp is caller-supplied. -/
def save_analytics (db : ChatCache) (timestamp : Rat) (model : String)
    (message_length : Int) (response_time : Rat) (tokens_used : Int) : ChatCache :=
  { db with
    analytics := db.analytics ++
      [⟨db.next_analytics_id, timestamp, model, message_length, response_time, tokens_used⟩],
    next_analytics_id := db.next_analytics_id + 1 }

/-- The `ORDER BY timestamp DESC` comparison of `get_chat_history`. -/
def newest_first (a b : MessageRow) : Prop :=
  b.timestamp ≤ a.timestamp

instance : DecidableRel newest_first :=
  fun a b => inferInstanceAs (Decidable (b.timestamp ≤ a.timestamp))

instance : IsTotal MessageRow newest_first :=
  ⟨fun a b => le_total b.timestamp a.timestamp⟩

instance : IsTrans MessageRow newest_first :=
  ⟨fun _ _ _ hab hbc => le_trans hbc hab⟩

/-- `ChatCache.get_chat_history`:
`SELECT * FROM messages ORDER BY timestamp DESC LIMIT ?` with default limit 50.
SQLite treats a negative LIMIT bound as "no limit". -/
def get_chat_history (db : ChatCache) (limit : Int := 50) : List MessageRow :=
  if limit < 0 then db.messages.insertionSort newest_first
  else (db.messages.insertionSort newest_first).take limit.toNat

/-- The `ORDER BY timestamp ASC` comparison of `get_analytics_history`. -/
def oldest_first (a b : AnalyticsRow) : Prop :=
  a.timestamp ≤ b.timestamp

instance : DecidableRel oldest_first :=
  fun a b => inferInstanceAs (Decidable (a.timestamp ≤ b.timestamp))

/-- `ChatCache.get_analytics_history`:
`SELECT ... FROM analytics_messages ORDER BY timestamp ASC`. -/
def get_analytics_history (db : ChatCache) : List AnalyticsRow :=
  db.analytics.insertionSort oldest_first

/-- `ChatCache.clear_history`: `DELETE FROM messages` — the analytics table and
the AUTOINCREMENT counters are untouched. -/
def clear_history (db : ChatCache) : ChatCache :=
  { db with messages := [] }

/-- The statistics record `get_statistics` returns. -/
structure Statistics where
  total_messages : Nat
  total_tokens : Int
  tokens_per_message : Rat
  messages_per_minute : Rat
deriving DecidableEq

/-- Modelled from the spec: `Analytics.get_statistics` — src/utils/analytics.py
is not present in the source tree (only src/main.py calls it).  Per spec §4.3 it
consumes the full analytics history and computes the total message count, the
token sum, average tokens per message (0 when the count is 0), and messages per
minute (count divided by the span in minutes between the first and last recorded
timestamp; 0 when there are fewer than 2 records or the span is zero), never
dividing by zero. -/
def get_statistics (history : List AnalyticsRow) : Statistics :=
  let n := history.length
  let tok := (history.map fun r => r.tokens_used).sum
  let span : Rat :=
    match history.head?, history.getLast? with
    | some first, some last => last.timestamp - first.timestamp
    | _, _ => 0
  { total_messages := n
    total_tokens := tok
    tokens_per_message := if n = 0 then 0 else (tok : Rat) / (n : Rat)
    messages_per_minute := if n < 2 ∨ span = 0 then 0 else (n : Rat) / (span / 60) }

/-- The response handling in src/main.py `send_message_click` (lines 141-147):
an `error` key selects the error branch (text `"Ошибка: ..."`, 0 tokens);
otherwise the reply text is `response["choices"][0]["message"]["content"]` and
the token count is read from the usage field (an empty dict when absent) under
the total_tokens key (default 0).  Failure (`none`) models the extraction
raising — caught further out by the try/except of the click handler.
(Non-string reply text and non-numeric token values,
which Python would pass through untyped, are not modelled.) -/
def handle_api_response (response : Json) : Option (String × Rat) :=
  match response with
  | Json.obj _ =>
    match jIndex response "error" with
    | some (Json.str e) => some ("Ошибка: " ++ e, 0)
    | some _ => none
    | none =>
      match jIndex response "choices" with
      | some (Json.arr (first :: _)) =>
        match jIndex first "message" with
        | some msg =>
          match jIndex msg "content" with
          | some (Json.str content) =>
            match dictGet response "usage" (Json.obj []) with
            | some usage =>
              match dictGet usage "total_tokens" (Json.num 0) with
              | some (Json.num tokens) => some (content, tokens)
              | _ => none
            | none => none
          | _ => none
        | none => none
      | _ => none
  | _ => none

-- Sample inputs used by witnesses.

/-- A small store state: two committed messages (timestamps 5 and 7). -/
def sampleCache : ChatCache :=
  ⟨[⟨1, "gpt-3.5-turbo", "hello", "hi", 5, 3⟩,
    ⟨2, "gpt-3.5-turbo", "again", "yo", 7, 4⟩], [], 3, 1⟩

/-- The provider completion body of spec §8: a reply "hi" costing 5 tokens. -/
def sampleProviderResponse : Json :=
  Json.obj
    [("choices", Json.arr [Json.obj [("message", Json.obj [("content", Json.str "hi")])]]),
     ("usage", Json.obj [("total_tokens", Json.num 5)])]

/-- The credits body of spec §8: 10 credits granted, 3.5 used. -/
def balanceData : Json :=
  Json.obj [("total_credits", Json.num 10), ("total_usage", Json.num 3.5)]

/-- An environment where only MAX_TOKENS is set, to a non-numeric string. -/
def envBadMaxTokens : Env :=
  ⟨none, none, none, none, some "abc", none⟩

/-- The empty environment: every variable unset, all defaults in force. -/
def envDefaults : Env :=
  ⟨none, none, none, none, none, none⟩

/-- Ids strictly increase along the stored list (insertion order). -/
def ids_increasing (l : List MessageRow) : Prop :=
  l.Pairwise fun a b => a.id < b.id

/-- The store invariant: ids strictly increase in insertion order and every
stored id is below the AUTOINCREMENT counter. -/
def cacheWF (db : ChatCache) : Prop :=
  ids_increasing db.messages ∧ ∀ r ∈ db.messages, r.id < db.next_message_id

/-- C1 (counterexample): a fully successful model-listing response whose data
array is empty makes `get_models` return the empty list — no failure occurred,
yet the returned sequence is empty, so "the returned sequence is never empty"
does not hold unconditionally. -/
theorem get_models_empty_data_counterexample :
    get_models (HttpOutcome.response 200 (Except.ok (Json.obj [("data", Json.arr [])]))) = [] :=
  rfl

/-- C1 (amended): whenever the model-listing request, status check, or response
parsing fails (the try body yields no value), `get_models` returns exactly the
hardcoded three-element fallback list instead of raising, so in every such
failing execution the returned sequence is non-empty. -/
theorem get_models_fallback_on_failure (r : HttpOutcome)
    (h : tryFetchModels r = none) :
    get_models r = fallback_models ∧ get_models r ≠ [] := by
  unfold get_models
  rw [h]
  exact ⟨rfl, List.cons_ne_nil _ _⟩

/-- C1 (witness): a raised network error yields the fallback list. -/
theorem get_models_fallback_on_failure_witness :
    get_models (HttpOutcome.raised "Connection refused") = fallback_models :=
  (get_models_fallback_on_failure (HttpOutcome.raised "Connection refused") rfl).1

/-- C2: `send_message` never raises across its boundary: it is a total
function that returns the parsed JSON body on full success, and on any failure
(network raise, error status, parse failure) returns an object carrying an
error string under the error key. -/
theorem send_message_never_raises (message model : String) (r : HttpOutcome) :
    (∀ j, requestOk r = some j → send_message message model r = j) ∧
    (requestOk r = none →
      ∃ s, send_message message model r = Json.obj [("error", Json.str s)]) := by
  constructor
  · intro j hj
    cases r with
    | raised e => simp [requestOk] at hj
    | response status body =>
      by_cases hs : statusError status
      · simp [requestOk, hs] at hj
      · cases body with
        | error e => simp [requestOk, hs, Except.toOption] at hj
        | ok jj =>
          simp [requestOk, hs, Except.toOption] at hj
          subst hj
          simp [send_message, hs]
  · intro h0
    cases r with
    | raised e => exact ⟨e, rfl⟩
    | response status body =>
      by_cases hs : statusError status
      · exact ⟨statusErrorText status, by simp [send_message, hs]⟩
      · cases body with
        | error e => exact ⟨e, by simp [send_message, hs]⟩
        | ok jj => simp [requestOk, hs, Except.toOption] at h0

/-- C2 (witness): a raised network error comes back as an error-keyed object. -/
theorem send_message_never_raises_witness :
    ∃ s, send_message "hello" "gpt-3.5-turbo" (HttpOutcome.raised "Connection refused")
        = Json.obj [("error", Json.str s)] :=
  (send_message_never_raises "hello" "gpt-3.5-turbo" (HttpOutcome.raised "Connection refused")).2 rfl

/-- C3: for every store state and every limit N ≥ 0, `get_chat_history` returns
at most N rows, ordered newest-timestamp-first; with limit 0 it returns the
empty sequence, and the default limit is 50. -/
theorem get_chat_history_limit_spec (db : ChatCache) (N : Int) (hN : 0 ≤ N) :
    ((get_chat_history db N).length : Int) ≤ N ∧
    List.Sorted newest_first (get_chat_history db N) ∧
    get_chat_history db 0 = [] ∧
    get_chat_history db = get_chat_history db 50 := by
  have hneg : ¬ N < 0 := not_lt.mpr hN
  refine ⟨?_, ?_, rfl, rfl⟩
  · have h1 : (get_chat_history db N).length ≤ N.toNat := by
      simp only [get_chat_history, if_neg hneg]
      exact List.length_take_le _ _
    omega
  · simp only [get_chat_history, if_neg hneg]
    exact List.Pairwise.sublist (List.take_sublist _ _)
      (List.sorted_insertionSort newest_first _)

/-- C3 (witness): the cap holds on a concrete two-row store with limit 2. -/
theorem get_chat_history_limit_spec_witness :
    (0 : Int) ≤ 2 ∧ ((get_chat_history sampleCache 2).length : Int) ≤ 2 :=
  ⟨by decide, (get_chat_history_limit_spec sampleCache 2 (by decide)).1⟩

/-- C10: with a negative limit the SQL LIMIT clause is unbounded, so
`get_chat_history` returns all message rows (a permutation of the stored list —
every row, newest first). -/
theorem get_chat_history_negative_unbounded (db : ChatCache) (N : Int) (hN : N < 0) :
    (get_chat_history db N).Perm db.messages ∧
    (get_chat_history db N).length = db.messages.length := by
  simp only [get_chat_history, if_pos hN]
  exact ⟨List.perm_insertionSort _ _, (List.perm_insertionSort _ _).length_eq⟩

/-- C10 (witness): limit -1 on a concrete two-row store returns both rows. -/
theorem get_chat_history_negative_unbounded_witness :
    (get_chat_history sampleCache (-1)).Perm sampleCache.messages :=
  (get_chat_history_negative_unbounded sampleCache (-1) (by decide)).1

/-- C4: from any well-formed store state, `save_message` appends one row whose
id is the AUTOINCREMENT counter — strictly greater than every previously
inserted id, so ids stay unique and strictly increasing in insertion order —
and whose timestamp is the clock of the store at write time (the caller supplies
only model, user text, assistant text and tokens). -/
theorem save_message_fresh_monotonic_id (db : ChatCache) (now : Rat)
    (model user_message ai_response : String) (tokens_used : Int) (h : cacheWF db) :
    (save_message db now model user_message ai_response tokens_used).messages
        = db.messages ++
          [⟨db.next_message_id, model, user_message, ai_response, now, tokens_used⟩] ∧
    (∀ r ∈ db.messages, r.id < db.next_message_id) ∧
    cacheWF (save_message db now model user_message ai_response tokens_used) := by
  refine ⟨rfl, h.2, ?_, ?_⟩
  · refine List.pairwise_append.mpr ⟨h.1, List.pairwise_singleton _ _, ?_⟩
    intro a ha b hb
    rw [List.mem_singleton] at hb
    subst hb
    exact h.2 a ha
  · intro r hr
    simp only [save_message, List.mem_append, List.mem_singleton] at hr
    rcases hr with hr | hr
    · exact Nat.lt_succ_of_lt (h.2 r hr)
    · subst hr
      exact Nat.lt_succ_self _

/-- C4 (witness): saving into the fresh store appends the row with id 1 and the
clock value as its timestamp. -/
theorem save_message_fresh_monotonic_id_witness :
    (save_message emptyCache 9 "gpt-3.5-turbo" "hello" "hi" 5).messages
        = emptyCache.messages ++
          [⟨emptyCache.next_message_id, "gpt-3.5-turbo", "hello", "hi", 9, 5⟩] :=
  (save_message_fresh_monotonic_id emptyCache 9 "gpt-3.5-turbo" "hello" "hi" 5
    ⟨List.Pairwise.nil, fun r hr => absurd hr (List.not_mem_nil r)⟩).1

/-- C5: `clear_history` empties the messages table, leaves every analytics row
unchanged, and a subsequent `get_chat_history` returns the empty sequence. -/
theorem clear_history_frame (db : ChatCache) :
    (clear_history db).messages = [] ∧
    (clear_history db).analytics = db.analytics ∧
    get_chat_history (clear_history db) = [] :=
  ⟨rfl, rfl, rfl⟩

/-- C6: on a fully successful credits response whose data object exposes
numeric total_credits and total_usage, `get_balance` returns "$" followed by
their difference rendered with exactly two decimal places; on any failed call it
returns the fixed localized failure string. -/
theorem get_balance_two_decimals (status : Nat) (data : Json) (c u : Rat)
    (hs : statusError status = false)
    (hc : dictGet data "total_credits" (Json.num 0) = some (Json.num c))
    (hu : dictGet data "total_usage" (Json.num 0) = some (Json.num u)) :
    get_balance (HttpOutcome.response status (Except.ok (Json.obj [("data", data)])))
        = "$" ++ formatF2 (c - u) ∧
    ∀ r : HttpOutcome, requestOk r = none → get_balance r = "Ошибка" := by
  constructor
  · have hd : dictGet (Json.obj [("data", data)]) "data" (Json.obj []) = some data := by
      simp [dictGet, List.lookup]
    simp [get_balance, hs, hd, hc, hu]
  · intro r h0
    cases r with
    | raised e => rfl
    | response status' body =>
      by_cases hs' : statusError status'
      · simp [get_balance, hs']
      · cases body with
        | error e => simp [get_balance, hs']
        | ok jj => simp [requestOk, hs', Except.toOption] at h0

/-- C6 (witness): 10 credits granted and 3.5 used come back as the literal
string "$6.50". -/
theorem get_balance_two_decimals_witness :
    get_balance (HttpOutcome.response 200 (Except.ok (Json.obj [("data", balanceData)])))
        = "$6.50" := by
  have h := (get_balance_two_decimals 200 balanceData 10 3.5 rfl rfl rfl).1
  rw [h]
  have h2 : (10 : Rat) - 3.5 = Rat.mk' 13 2 (by norm_num) (by norm_num) := by
    rw [Rat.mk'_eq_divInt, Rat.divInt_eq_div]
    norm_num
  rw [h2]
  rfl

/-- C7: `get_statistics` never divides by zero: on zero analytics records all
four fields are zero, and on exactly one record the rate is 0 and the average
tokens per message equals the token count of that record. -/
theorem get_statistics_safe_edges :
    get_statistics [] = ⟨0, 0, 0, 0⟩ ∧
    ∀ r : AnalyticsRow,
      (get_statistics [r]).messages_per_minute = 0 ∧
      (get_statistics [r]).tokens_per_message = (r.tokens_used : Rat) ∧
      (get_statistics [r]).total_messages = 1 := by
  refine ⟨rfl, fun r => ⟨?_, ?_, rfl⟩⟩
  · simp [get_statistics]
  · simp [get_statistics]

/-- C8: the provider response with reply "hi" and 5 total tokens passes through
`send_message` unchanged, and the caller-side extraction of src/main.py reads
reply text "hi" and token count 5 from it. -/
theorem send_message_extraction_example :
    send_message "hello" "gpt-3.5-turbo"
        (HttpOutcome.response 200 (Except.ok sampleProviderResponse))
        = sampleProviderResponse ∧
    handle_api_response sampleProviderResponse = some ("hi", 5) :=
  ⟨rfl, rfl⟩

/-- C9 (counterexample): with the credential resolving to the non-empty
hardcoded default but MAX_TOKENS set to a non-numeric string, construction
still raises (the ValueError from int() at line 29 of src/api/openrouter.py),
so a non-empty resolved credential does not prevent configuration errors. -/
theorem clientInit_raises_despite_credential :
    resolveApiKey envBadMaxTokens ≠ "" ∧
    clientInit envBadMaxTokens = Except.error (InitError.valueErrorInt "abc") :=
  ⟨by decide, rfl⟩

/-- C9 (amended): provided the MAX_TOKENS and TEMPERATURE settings parse,
construction raises the missing-credential error exactly when the resolved
credential is empty, and with a non-empty resolved credential it returns a
client carrying that credential. -/
theorem clientInit_key_check (env : Env)
    (hmt : (pyInt (env.MAX_TOKENS.getD "1000")).isSome = true)
    (ht : (pyFloat (env.TEMPERATURE.getD "0.7")).isSome = true) :
    (clientInit env = Except.error InitError.missingApiKey ↔ resolveApiKey env = "") ∧
    (resolveApiKey env ≠ "" → ∃ c : OpenRouterClient,
        clientInit env = Except.ok c ∧ c.api_key = resolveApiKey env) := by
  obtain ⟨mt, hmt'⟩ := Option.isSome_iff_exists.mp hmt
  obtain ⟨t, ht'⟩ := Option.isSome_iff_exists.mp ht
  constructor
  · constructor
    · intro h
      by_contra hk
      simp [clientInit, hmt', ht', hk] at h
    · intro hk
      simp [clientInit, hmt', ht', hk]
  · intro hk
    refine ⟨⟨resolveApiKey env, env.BASE_URL.getD DEFAULT_BASE_URL,
      parseDebug (env.DEBUG.getD "False"), env.LOG_LEVEL.getD DEFAULT_LOG_LEVEL,
      mt, t⟩, ?_, rfl⟩
    simp [clientInit, hmt', ht', hk]

/-- C9 (witness): with every variable unset the defaults parse, the default
credential is non-empty, and construction succeeds. -/
theorem clientInit_key_check_witness :
    ∃ c : OpenRouterClient,
      clientInit envDefaults = Except.ok c ∧ c.api_key = resolveApiKey envDefaults :=
  (clientInit_key_check envDefaults rfl rfl).2 (by decide)

end ChatAI
